import Mathlib

/-!
A shallow embedding of the LangGraph-based RAG pipeline in `src/app/`
(`state.py`, `retriever.py`, `grader.py`, `generator.py`, `graph.py`,
`config.py`, `main.py`).

The two external services — the chat model and the vector index — are
modelled as oracle functions supplied as parameters; everything the
repository itself computes (prompt construction, the substring test on
the classifier response, the graph wiring, the REPL, the credential
check) is translated directly from the Python source.
-/

/-- `langchain.schema.Document`: a text chunk with content and optional
metadata. -/
structure Document where
  page_content : String
  metadata : List (String × String)
deriving DecidableEq

/-- Python's substring test `needle in hay` on lists of characters:
true iff `needle` occurs contiguously inside `hay`. -/
def listContainsSub (needle : List Char) : List Char → Bool
  | [] => needle.isEmpty
  | c :: rest => needle.isPrefixOf (c :: rest) || listContainsSub needle rest

/-- Python's substring test `needle in hay` on strings. -/
def pyIn (needle hay : String) : Bool :=
  listContainsSub needle.toList hay.toList

/-- Python's `str.lower()` (ASCII case folding, which covers the
classifier responses exercised here). -/
def pyLower (s : String) : String :=
  String.mk (s.toList.map Char.toLower)

/-- The classification prompt of `grade_relevance` (grader.py): the
template string with `question` and `context` substituted. -/
def graderPrompt (question context : String) : String :=
  "\n        Determine if the retrieved context is relevant\n        to answer the question.\n\n        Question:\n        " ++ question ++ "\n\n        Context:\n        " ++ context ++ "\n\n        Answer only \x27yes\x27 or \x27no\x27.\n        "

/-- The grounding prompt of `generate_answer` (generator.py): the
template string with `context` and `question` substituted. -/
def generatorPrompt (context question : String) : String :=
  "\n        You are a helpful AI assistant.\n\n        Use the following context to answer the question.\n        If the answer is not in the context, say you don\x27t know.\n\n        Context:\n        " ++ context ++ "\n\n        Question:\n        " ++ question ++ "\n        "

/-- `grade_relevance(question, documents)` from grader.py: join the
document contents with a newline, send the classification prompt to the
chat model `llm`, and return whether the substring "yes" occurs in the
lowered response content. -/
def grade_relevance (llm : String → String) (question : String)
    (documents : List Document) : Bool :=
  let context := String.intercalate "\n" (documents.map Document.page_content)
  let response := llm (graderPrompt question context)
  pyIn "yes" (pyLower response)

/-- `generate_answer(question, documents)` from generator.py: join the
document contents with a blank line, send the grounding prompt to the
chat model `llm`, and return the response content unmodified. -/
def generate_answer (llm : String → String) (question : String)
    (documents : List Document) : String :=
  let context := String.intercalate "\n\n" (documents.map Document.page_content)
  llm (generatorPrompt context question)

/-- The external vector index: `similarity_search` answers a query with
the `k` nearest documents, in the index's similarity order. -/
structure VectorStore where
  similarity_search : String → Nat → List Document

/-- `retrieve_documents(vectorstore, query, k)` from retriever.py (the
Python default for `k` is 4): a one-line passthrough to the index's
similarity search. -/
def retrieve_documents (vectorstore : VectorStore) (query : String)
    (k : Nat) : List Document :=
  vectorstore.similarity_search query k

/-- Exceptions an external vector index could raise at query time. -/
inductive StoreError
  | indexUnavailable
  | serviceFailure
deriving DecidableEq

/-- A vector index whose search may raise (Python exceptions modelled as
`Except`). -/
structure FallibleStore where
  similarity_search : String → Nat → Except StoreError (List Document)

/-- `retrieve_documents` in exception-aware form: the body is the same
single passthrough expression as in retriever.py, so an exception from
the index propagates unchanged and any returned list (the empty list
included) is returned unchanged. -/
def retrieve_documentsE (vectorstore : FallibleStore) (query : String)
    (k : Nat) : Except StoreError (List Document) :=
  vectorstore.similarity_search query k

/-- `RAGState` (state.py). LangGraph is invoked with only `question`
present; the remaining keys are absent until a node writes them, so
they are modelled as `Option`. -/
structure RAGState where
  question : String
  retrieved_docs : Option (List Document)
  is_relevant : Option Bool
  generation : Option String
deriving DecidableEq

/-- The external services the graph nodes call: the vector store loaded
at module import, and the chat model (prompt text to response content). -/
structure Oracles where
  store : VectorStore
  llm : String → String

/-- The four nodes of `build_graph` (graph.py) plus the terminal END. -/
inductive Node
  | retrieve
  | grade
  | generate
  | fallback
  | done
deriving DecidableEq

/-- The fixed string the `fallback` node writes to `generation`. -/
def fallbackMessage : String :=
  "Sorry, I couldn\x27t find relevant information."

/-- One node body from graph.py: read the state keys the Python code
reads (a read of an absent key fails, like a `KeyError`) and merge the
returned partial update into the state. -/
def stepState (o : Oracles) : Node → RAGState → Option RAGState
  | Node.retrieve, s =>
      some { s with retrieved_docs := some (retrieve_documents o.store s.question 4) }
  | Node.grade, s =>
      match s.retrieved_docs with
      | none => none
      | some docs =>
          some { s with is_relevant := some (grade_relevance o.llm s.question docs) }
  | Node.generate, s =>
      match s.retrieved_docs with
      | none => none
      | some docs =>
          some { s with generation := some (generate_answer o.llm s.question docs) }
  | Node.fallback, s =>
      some { s with generation := some fallbackMessage }
  | Node.done, s => some s

/-- The edges of `build_graph`: entry point `retrieve`; an unconditional
edge `retrieve → grade`; the sole conditional edge out of `grade`, whose
routing lambda reads `is_relevant` from the updated state; terminal
edges from `generate` and `fallback`. -/
def nextNode : Node → RAGState → Option Node
  | Node.retrieve, _ => some Node.grade
  | Node.grade, s =>
      match s.is_relevant with
      | none => none
      | some b => some (if b then Node.generate else Node.fallback)
  | Node.generate, _ => some Node.done
  | Node.fallback, _ => some Node.done
  | Node.done, _ => none

/-- Run the compiled graph from node `n`: execute the node body, then
follow the edge computed on the updated state. The graph is acyclic, so
fuel 5 is enough from the entry point. -/
def runFrom (o : Oracles) : Nat → Node → RAGState → Option RAGState
  | 0, _, _ => none
  | fuel + 1, n, s =>
      if n = Node.done then some s
      else
        match stepState o n s with
        | none => none
        | some s1 =>
            match nextNode n s1 with
            | none => none
            | some n1 => runFrom o fuel n1 s1

/-- The nodes the engine executes, in execution order. -/
def traceFrom (o : Oracles) : Nat → Node → RAGState → List Node
  | 0, _, _ => []
  | fuel + 1, n, s =>
      if n = Node.done then []
      else
        match stepState o n s with
        | none => [n]
        | some s1 =>
            match nextNode n s1 with
            | none => [n]
            | some n1 => n :: traceFrom o fuel n1 s1

/-- The initial state of `app.invoke({"question": q})`: only the
question key is present. -/
def initState (q : String) : RAGState :=
  { question := q, retrieved_docs := none, is_relevant := none,
    generation := none }

/-- `app.invoke({"question": q})` on the compiled workflow. -/
def invoke (o : Oracles) (q : String) : Option RAGState :=
  runFrom o 5 Node.retrieve (initState q)

/-- The sequence of nodes executed by `app.invoke({"question": q})`. -/
def traceNodes (o : Oracles) (q : String) : List Node :=
  traceFrom o 5 Node.retrieve (initState q)

/-- The documents the workflow retrieves for question `q` (graph.py
calls `retrieve_documents` with the default `k = 4`). -/
def gradedDocs (o : Oracles) (q : String) : List Document :=
  retrieve_documents o.store q 4

/-- The state after the `retrieve` node has run. -/
def stateAfterRetrieve (o : Oracles) (q : String) : RAGState :=
  { question := q, retrieved_docs := some (gradedDocs o q),
    is_relevant := none, generation := none }

/-- The state after the `grade` node has run. -/
def stateAfterGrade (o : Oracles) (q : String) : RAGState :=
  { question := q, retrieved_docs := some (gradedDocs o q),
    is_relevant := some (grade_relevance o.llm q (gradedDocs o q)),
    generation := none }

/-- The answer the workflow produces for question `q`: the generator's
output when the grader said yes, the fixed fallback string otherwise. -/
def finalGeneration (o : Oracles) (q : String) : String :=
  if grade_relevance o.llm q (gradedDocs o q) then
    generate_answer o.llm q (gradedDocs o q)
  else fallbackMessage

/-- Errors that can escape one iteration of the REPL body. -/
inductive AppError
  | configMissing
  | invokeFailed
deriving DecidableEq

/-- The REPL of main.py over a list of input lines: stop when the line
lowers to "exit", otherwise run the body on the line; an exception from
the body propagates — there is no try/except around the loop body.
Returns the list of printed answers. -/
def mainLoop (step : String → Except AppError String) :
    List String → Except AppError (List String)
  | [] => Except.ok []
  | line :: rest =>
      if pyLower line = "exit" then Except.ok []
      else
        match step line with
        | Except.error e => Except.error e
        | Except.ok answer =>
            match mainLoop step rest with
            | Except.error e => Except.error e
            | Except.ok answers => Except.ok (answer :: answers)

/-- One REPL body from main.py: invoke the workflow with the input line
as `question` and read the `generation` key of the result. -/
def mainStep (o : Oracles) (q : String) : Except AppError String :=
  match invoke o q with
  | none => Except.error AppError.invokeFailed
  | some s =>
      match s.generation with
      | none => Except.error AppError.invokeFailed
      | some g => Except.ok g

/-- The interactive session of main.py. -/
def runSession (o : Oracles) (lines : List String) :
    Except AppError (List String) :=
  mainLoop (mainStep o) lines

/-- config.py, run at module import: `OPENAI_API_KEY = os.getenv(...)`
followed by `if not OPENAI_API_KEY: raise ValueError(...)`. Python
falsiness: both an absent variable (`None`) and the empty string raise. -/
def loadConfig (env : Option String) : Except AppError String :=
  match env with
  | none => Except.error AppError.configMissing
  | some key =>
      if key = "" then Except.error AppError.configMissing
      else Except.ok key

/-- Process startup: main.py imports `app.graph`, which imports
`app.config`, so the credential check runs before the REPL starts. -/
def startup (env : Option String) (o : Oracles) (lines : List String) :
    Except AppError (List String) :=
  match loadConfig env with
  | Except.error e => Except.error e
  | Except.ok _ => runSession o lines

/-- A concrete pair of oracles whose classifier always answers "yes"
(and whose index holds no documents). -/
def yesOracle : Oracles :=
  { store := { similarity_search := fun _ _ => [] },
    llm := fun _ => "yes" }

/-- A concrete pair of oracles whose classifier always answers "No."
and whose index returns a single weather document. -/
def noOracle : Oracles :=
  { store := { similarity_search := fun _ _ =>
      [{ page_content := "It is sunny today.", metadata := [] }] },
    llm := fun _ => "No." }

/-- A concrete index that answers every query with exactly `k` numbered
documents, in rank order. -/
def rankedStore : VectorStore :=
  { similarity_search := fun _ k =>
      (List.range k).map (fun i => { page_content := toString i, metadata := [] }) }

/-- A concrete fallible index that is empty: every search succeeds with
no documents. -/
def emptyIndexStore : FallibleStore :=
  { similarity_search := fun _ _ => Except.ok [] }

/-- A concrete REPL body that raises on every question. -/
def crashingStep : String → Except AppError String :=
  fun _ => Except.error AppError.invokeFailed

lemma invoke_closed (o : Oracles) (q : String) :
    invoke o q = some
      { question := q, retrieved_docs := some (gradedDocs o q),
        is_relevant := some (grade_relevance o.llm q (gradedDocs o q)),
        generation := some (finalGeneration o q) } := by
  have h0 : invoke o q = runFrom o 3
      (if grade_relevance o.llm q (gradedDocs o q) then Node.generate else Node.fallback)
      (stateAfterGrade o q) := rfl
  rw [h0]
  cases h : grade_relevance o.llm q (gradedDocs o q) <;>
    simp [stateAfterGrade, finalGeneration, h] <;> rfl

lemma traceNodes_closed (o : Oracles) (q : String) :
    traceNodes o q = [Node.retrieve, Node.grade,
      if grade_relevance o.llm q (gradedDocs o q) then Node.generate else Node.fallback] := by
  have h0 : traceNodes o q = Node.retrieve :: Node.grade :: traceFrom o 3
      (if grade_relevance o.llm q (gradedDocs o q) then Node.generate else Node.fallback)
      (stateAfterGrade o q) := rfl
  rw [h0]
  cases h : grade_relevance o.llm q (gradedDocs o q) <;>
    simp [stateAfterGrade, h] <;> rfl

lemma isPrefixOf_eq_decide (l1 l2 : List Char) :
    l1.isPrefixOf l2 = decide (List.IsPrefix l1 l2) := by
  by_cases h : List.IsPrefix l1 l2
  · simp [List.isPrefixOf_iff_prefix, h]
  · simp [Bool.eq_false_iff, List.isPrefixOf_iff_prefix, h]

lemma listContainsSub_eq_decide (n : List Char) : ∀ l : List Char,
    listContainsSub n l = decide (List.IsInfix n l)
  | [] => by
      cases n with
      | nil => simp [listContainsSub]
      | cons c cs => simp [listContainsSub]
  | c :: l => by
      rw [listContainsSub, listContainsSub_eq_decide n l]
      simp [List.infix_cons_iff, isPrefixOf_eq_decide]

lemma pyIn_eq_decide (needle hay : String) :
    pyIn needle hay = decide (List.IsInfix needle.toList hay.toList) :=
  listContainsSub_eq_decide needle.toList hay.toList

lemma mainStep_eq (o : Oracles) (q : String) :
    mainStep o q = Except.ok (finalGeneration o q) := by
  unfold mainStep
  rw [invoke_closed]

lemma mainLoop_total (f : String → String) : ∀ lines : List String,
    mainLoop (fun q => Except.ok (f q)) lines =
      Except.ok ((lines.takeWhile (fun l => !(pyLower l == "exit"))).map f)
  | [] => rfl
  | line :: rest => by
      by_cases h : pyLower line = "exit"
      · simp [mainLoop, List.takeWhile_cons, h]
      · simp [mainLoop, List.takeWhile_cons, h, mainLoop_total f rest]

/-- Claim C1: whenever the grader returns true for the question and the
retrieved documents, the final `generation` is exactly the generator's
output on that same pair, the execution is retrieve, grade, generate,
and the fallback node is never executed. -/
theorem graph_relevant_generates (o : Oracles) (q : String)
    (h : grade_relevance o.llm q (gradedDocs o q) = true) :
    (invoke o q).bind RAGState.generation =
      some (generate_answer o.llm q (gradedDocs o q)) ∧
    traceNodes o q = [Node.retrieve, Node.grade, Node.generate] ∧
    Node.fallback ∉ traceNodes o q := by
  refine ⟨?_, ?_, ?_⟩
  · rw [invoke_closed]
    simp [finalGeneration, h]
  · rw [traceNodes_closed, h]
    simp
  · rw [traceNodes_closed, h]
    simp

/-- Witness for C1 at a concrete oracle whose classifier answers "yes". -/
theorem graph_relevant_generates_witness :
    (invoke yesOracle "What is the capital of France?").bind RAGState.generation =
      some (generate_answer yesOracle.llm "What is the capital of France?"
        (gradedDocs yesOracle "What is the capital of France?")) ∧
    traceNodes yesOracle "What is the capital of France?" =
      [Node.retrieve, Node.grade, Node.generate] ∧
    Node.fallback ∉ traceNodes yesOracle "What is the capital of France?" :=
  graph_relevant_generates yesOracle "What is the capital of France?" rfl

/-- Claim C2: whenever the grader returns false, the final `generation`
is exactly the fixed fallback string, the generator node is never
executed, and the fallback node's behaviour does not depend on the
external services at all (it makes no external call). -/
theorem graph_irrelevant_fallback (o o2 : Oracles) (q : String) (s : RAGState)
    (h : grade_relevance o.llm q (gradedDocs o q) = false) :
    (invoke o q).bind RAGState.generation = some fallbackMessage ∧
    traceNodes o q = [Node.retrieve, Node.grade, Node.fallback] ∧
    Node.generate ∉ traceNodes o q ∧
    stepState o Node.fallback s = stepState o2 Node.fallback s := by
  refine ⟨?_, ?_, ?_, rfl⟩
  · rw [invoke_closed]
    simp [finalGeneration, h]
  · rw [traceNodes_closed, h]
    simp
  · rw [traceNodes_closed, h]
    simp

/-- Witness for C2 at a concrete oracle whose classifier answers "No.". -/
theorem graph_irrelevant_fallback_witness :
    (invoke noOracle "What is the capital of France?").bind RAGState.generation =
      some fallbackMessage ∧
    traceNodes noOracle "What is the capital of France?" =
      [Node.retrieve, Node.grade, Node.fallback] ∧
    Node.generate ∉ traceNodes noOracle "What is the capital of France?" ∧
    stepState noOracle Node.fallback (initState "x") =
      stepState yesOracle Node.fallback (initState "x") :=
  graph_irrelevant_fallback noOracle yesOracle "What is the capital of France?"
    (initState "x") rfl

/-- Claim C3: for every classifier response text r, the grader returns
true exactly when the literal substring "yes" occurs in the lowered
response, anywhere; in particular the response about yesterday is
graded true and the bare "No." is graded false. -/
theorem grader_yes_substring :
    (∀ (r question : String) (documents : List Document),
        grade_relevance (fun _ => r) question documents =
          decide (List.IsInfix "yes".toList (pyLower r).toList)) ∧
    grade_relevance (fun _ => "Yesterday\x27s context is unrelated.")
      "What is the capital of France?" [] = true ∧
    grade_relevance (fun _ => "No.") "What is the capital of France?" [] = false := by
  refine ⟨?_, by decide, by decide⟩
  intro r question documents
  exact pyIn_eq_decide "yes" (pyLower r)

/-- Claim C4: in every execution, `retrieved_docs` is written by the
retrieve node before the grade node can run (grading the initial state
fails), `is_relevant` is written by the grade node before the branch
can be taken (routing on the pre-grade state fails), and `generation`,
absent initially, is written by exactly one of the generate and
fallback nodes — the trace contains exactly one of the two. -/
theorem workflow_write_invariants (o : Oracles) (q : String) :
    stepState o Node.grade (initState q) = none ∧
    nextNode Node.grade (stateAfterRetrieve o q) = none ∧
    stepState o Node.retrieve (initState q) = some (stateAfterRetrieve o q) ∧
    (stateAfterRetrieve o q).retrieved_docs = some (gradedDocs o q) ∧
    stepState o Node.grade (stateAfterRetrieve o q) = some (stateAfterGrade o q) ∧
    (stateAfterGrade o q).is_relevant =
      some (grade_relevance o.llm q (gradedDocs o q)) ∧
    (initState q).generation = none ∧
    (traceNodes o q = [Node.retrieve, Node.grade, Node.generate] ∨
      traceNodes o q = [Node.retrieve, Node.grade, Node.fallback]) ∧
    (traceNodes o q).count Node.generate + (traceNodes o q).count Node.fallback = 1 := by
  refine ⟨rfl, rfl, rfl, rfl, rfl, rfl, rfl, ?_, ?_⟩
  · rw [traceNodes_closed]
    cases h : grade_relevance o.llm q (gradedDocs o q) <;> simp
  · rw [traceNodes_closed]
    cases h : grade_relevance o.llm q (gradedDocs o q) <;> simp

/-- Claim C5: for every query and every k > 0, `retrieve_documents`
asks the index for exactly k documents and returns the index's answer
unchanged and in order; the graph's retrieve node calls it with the
default k = 4 on the state's question. -/
theorem retriever_passthrough (vectorstore : VectorStore) (query : String)
    (k : Nat) (o : Oracles) (s : RAGState) (_hk : 0 < k) :
    retrieve_documents vectorstore query k =
      vectorstore.similarity_search query k ∧
    stepState o Node.retrieve s =
      some { s with retrieved_docs := some (retrieve_documents o.store s.question 4) } :=
  ⟨rfl, rfl⟩

/-- Witness for C5 at a concrete index returning k ranked documents. -/
theorem retriever_passthrough_witness :
    retrieve_documents rankedStore "What is the capital of France?" 4 =
      rankedStore.similarity_search "What is the capital of France?" 4 ∧
    stepState yesOracle Node.retrieve (initState "q") =
      some { initState "q" with retrieved_docs := some (retrieve_documents yesOracle.store (initState "q").question 4) } :=
  retriever_passthrough rankedStore "What is the capital of France?" 4
    yesOracle (initState "q") (by decide)

/-- Counterexample to claim C6: at query time against an empty index the
retriever silently returns a successful empty result, not an
`IndexUnavailable` error. -/
theorem retriever_empty_index_silent :
    retrieve_documentsE emptyIndexStore "What is the capital of France?" 4 =
      Except.ok [] := rfl

/-- Claim C6 as amended: the retriever adds no availability or emptiness
check of its own — an exception raised by the index propagates
unchanged (fatal for the invocation), while any list the index returns,
the empty list included, is returned unchanged without any error. -/
theorem retriever_no_availability_check (vectorstore : FallibleStore)
    (query : String) (k : Nat) (e : StoreError) :
    retrieve_documentsE vectorstore query k =
      vectorstore.similarity_search query k ∧
    retrieve_documentsE { similarity_search := fun _ _ => Except.error e }
      query k = Except.error e :=
  ⟨rfl, rfl⟩

/-- Counterexample to claim C7: with a loop body that raises on every
question, the session over two input lines terminates with the error —
the second question is never processed, so errors are not caught at the
loop boundary. -/
theorem repl_error_terminates_session :
    mainLoop crashingStep ["first question", "second question"] =
      Except.error AppError.invokeFailed := rfl

/-- Claim C7 as amended: an error raised while processing one question
propagates out of the loop unchanged and ends the session; main.py has
no try/except at the loop boundary. -/
theorem repl_error_propagates (step : String → Except AppError String)
    (line : String) (rest : List String) (e : AppError)
    (hline : pyLower line ≠ "exit") (hstep : step line = Except.error e) :
    mainLoop step (line :: rest) = Except.error e := by
  simp [mainLoop, hline, hstep]

/-- Witness for the amended C7 at a concrete crashing body. -/
theorem repl_error_propagates_witness :
    mainLoop crashingStep ["a", "b"] = Except.error AppError.invokeFailed :=
  repl_error_propagates crashingStep "a" ["b"] AppError.invokeFailed
    (by decide) rfl

/-- Claim C8: the REPL stops exactly at the first line that lowers to
"exit"; every earlier line is passed unchanged as the workflow's
`question` (the invoked state's question field is the raw line) and the
resulting `generation` is the printed answer. -/
theorem repl_exit_and_passthrough (o : Oracles) (lines : List String) :
    runSession o lines =
      Except.ok ((lines.takeWhile (fun l => !(pyLower l == "exit"))).map
        (finalGeneration o)) ∧
    ∀ q : String, (invoke o q).map RAGState.question = some q := by
  constructor
  · have hstep : mainStep o = fun q => Except.ok (finalGeneration o q) :=
      funext (mainStep_eq o)
    rw [runSession, hstep]
    exact mainLoop_total (finalGeneration o) lines
  · intro q
    rw [invoke_closed]
    rfl

/-- Claim C9: when the credential is absent from the environment, the
process fails at import time with the configuration error, for every
oracle and every list of pending input lines — no workflow step runs
and no prompt is ever answered. -/
theorem config_missing_fails_fast (o : Oracles) (lines : List String) :
    startup none o lines = Except.error AppError.configMissing := rfl

/-- Claim C10: on an empty document list the grader does not
short-circuit: it builds the empty context string and still consults
the classifier, so the verdict is exactly the substring test on the
classifier's response to the empty-context prompt — and both verdicts
are reachable. -/
theorem grader_empty_docs_still_calls_llm :
    (∀ (llm : String → String) (question : String),
        grade_relevance llm question [] =
          pyIn "yes" (pyLower (llm (graderPrompt question "")))) ∧
    grade_relevance (fun _ => "Yes, the context is sufficient.")
      "What is the capital of France?" [] = true ∧
    grade_relevance (fun _ => "There is no relevant context.")
      "What is the capital of France?" [] = false := by
  refine ⟨?_, by decide, by decide⟩
  intro llm question
  rfl
